import Mathlib

/-!
Shallow embedding of the multi-exchange client layer of the trading-bot
repository (src/app/exchanges/*, src/app/utils/exceptions.py), together with
theorems settling the frozen claims about it.

Conventions of the embedding:
* Python floats are modelled as `ℚ` (the arithmetic in every claim at issue is
  exact at the inputs considered, so rationals are a faithful model).
* Python `dict` payloads are modelled as structures holding exactly the fields
  the code reads; a field read with `dict.get` (which may be absent) is an
  `Option`, a field read with `[...]` (whose absence raises `KeyError`) is
  either plain or an `Option` matched to model the `KeyError` path when it is
  relevant to a claim.
* Numeric wire fields that arrive as strings and are converted with `float()`
  are modelled directly as `ℚ`; the source's comparisons against the literal
  string `"0"` (Bybit/Binance price fields) are modelled as comparisons with
  `0`, and an OKX field whose emptiness is truthiness-tested (`avgPx`, `px`)
  is an `Option ℚ` with `none` for the empty string.
* Exceptions are values of `PyExc`; a fallible code path is a function into
  `Except PyExc _`.
-/

/-- Detail payload of the `fastapi.HTTPException` raised by
`MEXCSpotClient.create_order`'s error path (src/app/exchanges/mexc_spot.py
lines 138-166): either the JSON text successfully extracted from the SDK error
message, or the dict `\x7b"message": error_msg\x7d`. -/
inductive MexcHTTPDetail
  | parsedJson (jsonText : String)
  | messageDict (message : String)
  deriving DecidableEq, Repr

/-- The exception kinds that can propagate out of the adapter layer.
`validationError` models `ValidationError` from src/app/utils/exceptions.py
(an `HTTPException` subclass with status 400 whose detail is
`"Validation error: " ++ d`; the constructor carries the raw detail `d`).
`exchangeAPIError` — Modelled from the spec: the class `ExchangeAPIError` is
imported by every adapter from `..utils.exceptions` but is not defined
anywhere under src/; the spec (§7) describes it as the error kind for any
failure originating in a call to the remote exchange, carrying the native
message. `httpException` models a bare `fastapi.HTTPException`. -/
inductive PyExc
  | validationError (detail : String)
  | exchangeAPIError (detail : String)
  | httpException (statusCode : Nat) (detail : MexcHTTPDetail)
  deriving DecidableEq, Repr

/-- Discriminator: is the exception a `ValidationError`? -/
def PyExc.isValidationError : PyExc → Bool
  | .validationError _ => true
  | _ => false

/-- Discriminator: is the exception an `ExchangeAPIError`? -/
def PyExc.isExchangeAPIError : PyExc → Bool
  | .exchangeAPIError _ => true
  | _ => false

/-- Discriminator: is the exception a bare `HTTPException`? -/
def PyExc.isHTTPException : PyExc → Bool
  | .httpException _ _ => true
  | _ => false

/-- `ExchangeClientBase.handle_error` (src/app/exchanges/base.py lines 56-60):
every error routed through it is re-raised as
`ExchangeAPIError(f"Exchange API Error: \x7bstr(error)\x7d")`. -/
def handleError (errorMsg : String) : PyExc :=
  .exchangeAPIError ("Exchange API Error: " ++ errorMsg)

/-- Python truthiness of an optional string (`not passphrase` is true exactly
for `None` and the empty string). -/
def pyFalsyStr : Option String → Bool
  | none => true
  | some s => s.isEmpty

/-- Python truthiness of an optional float (`if price` / `if quote_order_qty`
is false exactly for `None` and `0.0`). -/
def pyTruthyQ : Option ℚ → Bool
  | none => false
  | some q => decide (q ≠ 0)

/-- Python `str.upper` for the ASCII strings this code applies it to. -/
def pyUpper (s : String) : String := String.mk (s.data.map Char.toUpper)

/-- Python `str.lower` for the ASCII strings this code applies it to. -/
def pyLower (s : String) : String := String.mk (s.data.map Char.toLower)

/-- `ExchangeType` from src/app/schemas.py lines 22-27. -/
inductive ExchangeType
  | binance | mexc | kucoin | okx | bybit
  deriving DecidableEq, Repr

/-- The string value of each `ExchangeType` member (src/app/schemas.py). -/
def ExchangeType.value : ExchangeType → String
  | .binance => "binance"
  | .mexc => "mexc"
  | .kucoin => "kucoin"
  | .okx => "okx"
  | .bybit => "bybit"

/-- `MarketType` from src/app/schemas.py lines 29-31. -/
inductive MarketType
  | spot | futures
  deriving DecidableEq, Repr

/-- The string value of each `MarketType` member (src/app/schemas.py). -/
def MarketType.value : MarketType → String
  | .spot => "spot"
  | .futures => "futures"

/-- The adapter instance returned by the factory: the concrete class together
with its constructor arguments.  The connectivity probe each constructor
performs is network I/O outside the embedding; the claims condition on valid
credentials, under which the probe succeeds. -/
inductive ExchangeClient
  | binanceSpot (apiKey apiSecret : String) (testnet : Bool)
  | mexcSpot (apiKey apiSecret : String) (testnet : Bool)
  | kucoinSpot (apiKey apiSecret passphrase : String) (testnet : Bool)
  | okxSpot (apiKey apiSecret passphrase : String) (testnet : Bool)
  | bybitSpot (apiKey apiSecret : String) (testnet : Bool)
  deriving DecidableEq, Repr

/-- `ExchangeClientFactory.create_client` (src/app/exchanges/factory.py lines
16-65), translated branch for branch: each exchange arm handles only the
markets it supports and falls through to the final
`ValidationError(f"Unsupported exchange/market combination: ...")`; KuCoin and
OKX check the passphrase before looking at the market type.  Enum rendering
inside the f-string is modelled by `.value`. -/
def createClient (exchange : ExchangeType) (marketType : MarketType)
    (apiKey apiSecret : String) (passphrase : Option String) (testnet : Bool) :
    Except PyExc ExchangeClient :=
  let unsupported : Except PyExc ExchangeClient :=
    .error (.validationError
      ("Unsupported exchange/market combination: "
        ++ exchange.value ++ "/" ++ marketType.value))
  match exchange with
  | .binance =>
      if marketType = .spot then .ok (.binanceSpot apiKey apiSecret testnet)
      else unsupported
  | .mexc =>
      if marketType = .spot then .ok (.mexcSpot apiKey apiSecret testnet)
      else unsupported
  | .kucoin =>
      if pyFalsyStr passphrase then
        .error (.validationError "Passphrase is required for KuCoin")
      else if marketType = .spot then
        .ok (.kucoinSpot apiKey apiSecret (passphrase.getD "") testnet)
      else unsupported
  | .okx =>
      if pyFalsyStr passphrase then
        .error (.validationError "Passphrase is required for OKX")
      else if marketType = .spot then
        .ok (.okxSpot apiKey apiSecret (passphrase.getD "") testnet)
      else unsupported
  | .bybit =>
      if marketType = .spot then .ok (.bybitSpot apiKey apiSecret testnet)
      else unsupported

/-- The set of (exchange, market_type) pairs for which the factory actually
constructs a client: every exchange's spot market and nothing else. -/
def supportTable : List (ExchangeType × MarketType) :=
  [(.binance, .spot), (.mexc, .spot), (.kucoin, .spot), (.okx, .spot),
   (.bybit, .spot)]

/-- The adapter class the factory constructs for each supported exchange. -/
def correspondingClient (exchange : ExchangeType)
    (apiKey apiSecret : String) (passphrase : Option String) (testnet : Bool) :
    ExchangeClient :=
  match exchange with
  | .binance => .binanceSpot apiKey apiSecret testnet
  | .mexc => .mexcSpot apiKey apiSecret testnet
  | .kucoin => .kucoinSpot apiKey apiSecret (passphrase.getD "") testnet
  | .okx => .okxSpot apiKey apiSecret (passphrase.getD "") testnet
  | .bybit => .bybitSpot apiKey apiSecret testnet

/-- The seven canonical order statuses (spec §3). -/
def canonicalStatuses : List String :=
  ["NEW", "PARTIALLY_FILLED", "FILLED", "CANCELED", "REJECTED", "EXPIRED",
   "PENDING_CANCEL"]

/-- First-match association-list lookup, modelling Python `dict.get` on the
status tables (whose keys are distinct). -/
def lookupTable (table : List (String × String)) (key : String) :
    Option String :=
  (table.find? (fun p => p.1 == key)).map (fun p => p.2)

/-- The `status_map` dict of `BybitSpotClient._map_order_status`
(src/app/exchanges/bybit_spot.py lines 200-211). -/
def bybitStatusMap : List (String × String) :=
  [("Created", "NEW"), ("New", "NEW"), ("PartiallyFilled", "PARTIALLY_FILLED"),
   ("Filled", "FILLED"), ("Cancelled", "CANCELED"), ("Rejected", "REJECTED"),
   ("PendingCancel", "PENDING_CANCEL")]

/-- `BybitSpotClient._map_order_status`:
`status_map.get(bybit_status, bybit_status.upper())`. -/
def bybitMapOrderStatus (s : String) : String :=
  (lookupTable bybitStatusMap s).getD (pyUpper s)

/-- The `status_map` dict of `OKXSpotClient._map_order_status`
(src/app/exchanges/okx_spot.py lines 197-206). -/
def okxStatusMap : List (String × String) :=
  [("live", "NEW"), ("partially_filled", "PARTIALLY_FILLED"),
   ("filled", "FILLED"), ("canceled", "CANCELED"), ("failed", "REJECTED")]

/-- `OKXSpotClient._map_order_status`:
`status_map.get(okx_status, okx_status.upper())`. -/
def okxMapOrderStatus (s : String) : String :=
  (lookupTable okxStatusMap s).getD (pyUpper s)

/-- The normalized order record produced by `_format_order` in the Binance,
KuCoin, Bybit and OKX adapters (all four emit exactly these keys). -/
structure CanonicalOrder where
  order_id : String
  symbol : String
  status : String
  side : String
  type : String
  quantity : ℚ
  executed_qty : ℚ
  price : Option ℚ
  created_at : Nat
  updated_at : Option Nat
  commission : ℚ
  commission_asset : Option String
  average_price : Option ℚ
  deriving DecidableEq, Repr

/-- One element of the `fills` list of a Binance FULL order response. -/
structure BinanceFill where
  price : ℚ
  qty : ℚ
  commission : ℚ
  commissionAsset : String
  deriving DecidableEq, Repr

/-- The fields of a Binance native order payload read by
`BinanceSpotClient._format_order` (src/app/exchanges/binance_spot.py lines
273-289), plus the `fills` list a FULL create-order response carries (which
that formatter never reads).  Fields read with `dict.get` are `Option`s. -/
structure BinanceOrderPayload where
  orderId : Nat
  symbol : String
  status : String
  side : String
  type : String
  origQty : ℚ
  executedQty : ℚ
  price : ℚ
  time : Nat
  updateTime : Option Nat
  commission : Option ℚ
  commissionAsset : Option String
  avgPrice : Option ℚ
  fills : List BinanceFill
  deriving DecidableEq, Repr

/-- `BinanceSpotClient._format_order`: `price` is `None` when the wire string
is `'0'`; `commission` defaults to `0`; `average_price` is
`float(order.get('avgPrice', 0)) or None`, i.e. `None` exactly when the value
is absent or zero.  The `fills` list is not consulted. -/
def binanceFormatOrder (o : BinanceOrderPayload) : CanonicalOrder :=
  { order_id := toString o.orderId
    symbol := o.symbol
    status := o.status
    side := o.side
    type := o.type
    quantity := o.origQty
    executed_qty := o.executedQty
    price := if o.price ≠ 0 then some o.price else none
    created_at := o.time
    updated_at := o.updateTime
    commission := o.commission.getD 0
    commission_asset := o.commissionAsset
    average_price := if o.avgPrice.getD 0 ≠ 0 then some (o.avgPrice.getD 0) else none }

/-- Total commission of a list of Binance fills (what spec §4.3 says the
normalizer aggregates). -/
def fillsCommission (fills : List BinanceFill) : ℚ :=
  (fills.map (fun f => f.commission)).sum

/-- Commission asset of the first fill (what spec §4.3 says `commission_asset`
is taken from). -/
def firstFillAsset (fills : List BinanceFill) : Option String :=
  fills.head?.map (fun f => f.commissionAsset)

/-- A fill as (price, quantity); spec §4.3's weighted-mean numerator
`Σ fill_price_i × fill_qty_i`, which is exactly KuCoin's native `dealFunds`
aggregate. -/
def fillsQuoteFunds (fills : List (ℚ × ℚ)) : ℚ :=
  (fills.map (fun f => f.1 * f.2)).sum

/-- Total filled quantity `Σ fill_qty_i`, KuCoin's native `dealSize`. -/
def fillsQty (fills : List (ℚ × ℚ)) : ℚ :=
  (fills.map (fun f => f.2)).sum

/-- The fields of a KuCoin native order payload read by
`KuCoinSpotClient._format_order` (src/app/exchanges/kucoin_spot.py lines
168-184).  `price` is `None` when the key is absent or its value falsy. -/
structure KucoinOrderPayload where
  id : String
  symbol : String
  status : String
  side : String
  type : String
  size : ℚ
  dealSize : Option ℚ
  price : Option ℚ
  createdAt : Nat
  updatedAt : Option Nat
  fee : Option ℚ
  feeCurrency : Option String
  dealFunds : Option ℚ
  deriving DecidableEq, Repr

/-- `KuCoinSpotClient._format_order`: statuses/sides/types uppercased;
`average_price` is `dealFunds / dealSize` when `dealSize > 0` (the division's
`dealSize` default of 1 is unreachable under the guard) and `None`
otherwise. -/
def kucoinFormatOrder (o : KucoinOrderPayload) : CanonicalOrder :=
  { order_id := o.id
    symbol := o.symbol
    status := pyUpper o.status
    side := pyUpper o.side
    type := pyUpper o.type
    quantity := o.size
    executed_qty := o.dealSize.getD 0
    price := o.price
    created_at := o.createdAt
    updated_at := o.updatedAt
    commission := o.fee.getD 0
    commission_asset := o.feeCurrency
    average_price :=
      if 0 < o.dealSize.getD 0 then some (o.dealFunds.getD 0 / o.dealSize.getD 1)
      else none }

/-- The fields of an OKX native order payload read by
`OKXSpotClient._format_order` (src/app/exchanges/okx_spot.py lines 179-195).
`px` and `avgPx` arrive as strings whose truthiness is tested; `none` models
the empty string. -/
structure OkxOrderPayload where
  ordId : String
  instId : String
  state : String
  side : String
  ordType : String
  sz : ℚ
  fillSz : ℚ
  px : Option ℚ
  cTime : Nat
  uTime : Nat
  fee : Option ℚ
  feeCcy : Option String
  avgPx : Option ℚ
  deriving DecidableEq, Repr

/-- `OKXSpotClient._format_order`: status translated through
`okxMapOrderStatus`; `price` and `average_price` copied from `px`/`avgPx`
(absent when the wire string is empty); commission read from the native
aggregate `fee`/`feeCcy` fields. -/
def okxFormatOrder (o : OkxOrderPayload) : CanonicalOrder :=
  { order_id := o.ordId
    symbol := o.instId
    status := okxMapOrderStatus o.state
    side := pyUpper o.side
    type := pyUpper o.ordType
    quantity := o.sz
    executed_qty := o.fillSz
    price := o.px
    created_at := o.cTime
    updated_at := some o.uTime
    commission := o.fee.getD 0
    commission_asset := o.feeCcy
    average_price := o.avgPx }

/-- The fields of a Bybit native order payload read by
`BybitSpotClient._format_order` (src/app/exchanges/bybit_spot.py lines
182-198).  `price` and `avgPrice` are compared against the wire string `'0'`,
modelled as comparison with `0`. -/
structure BybitOrderPayload where
  orderId : String
  symbol : String
  orderStatus : String
  side : String
  orderType : String
  qty : ℚ
  cumExecQty : ℚ
  price : ℚ
  createdTime : Nat
  updatedTime : Nat
  cumExecFee : Option ℚ
  feeTokenId : Option String
  avgPrice : ℚ
  deriving DecidableEq, Repr

/-- `BybitSpotClient._format_order`: status translated through
`bybitMapOrderStatus`; commission read from the native aggregate
`cumExecFee`/`feeTokenId`; `average_price` copied from `avgPrice`, absent
when it is `'0'`. -/
def bybitFormatOrder (o : BybitOrderPayload) : CanonicalOrder :=
  { order_id := o.orderId
    symbol := o.symbol
    status := bybitMapOrderStatus o.orderStatus
    side := pyUpper o.side
    type := pyUpper o.orderType
    quantity := o.qty
    executed_qty := o.cumExecQty
    price := if o.price ≠ 0 then some o.price else none
    created_at := o.createdTime
    updated_at := some o.updatedTime
    commission := o.cumExecFee.getD 0
    commission_asset := o.feeTokenId
    average_price := if o.avgPrice ≠ 0 then some o.avgPrice else none }

/-- The fields of a MEXC native order payload read by
`MEXCSpotClient._format_order` (src/app/exchanges/mexc_spot.py lines
212-226).  Every field is an `Option` so that the `KeyError` path of
`create_order` can be modelled; the fields read with a bare `[...]` are
required. -/
structure MexcOrderPayload where
  orderId : Option String
  symbol : Option String
  status : Option String
  side : Option String
  type : Option String
  price : Option ℚ
  origQty : Option ℚ
  executedQty : Option ℚ
  cummulativeQuoteQty : Option ℚ
  transactTime : Option Nat
  time : Option Nat
  updateTime : Option Nat
  deriving DecidableEq, Repr

/-- The record `MEXCSpotClient._format_order` emits — a different (smaller)
key set than the other four adapters' normalizers: no commission, no
commission asset, no average price, no nullable price. -/
structure MexcFormattedOrder where
  order_id : String
  symbol : String
  status : String
  side : String
  type : String
  price : ℚ
  quantity : ℚ
  executed_qty : ℚ
  cummulative_quote_qty : ℚ
  time : Nat
  update_time : Nat
  deriving DecidableEq, Repr

/-- `MEXCSpotClient._format_order`, `none` modelling the `KeyError` raised
when a required key is missing.  `origQty` is required even for
`executed_qty` because Python evaluates `order.get('executedQty',
order['origQty'])`'s default eagerly. -/
def mexcFormatOrder (o : MexcOrderPayload) : Option MexcFormattedOrder :=
  match o.orderId, o.symbol, o.side, o.type, o.price, o.origQty with
  | some oid, some sym, some sd, some ty, some pr, some oq =>
      some
        { order_id := oid
          symbol := sym
          status := o.status.getD "FILLED"
          side := sd
          type := ty
          price := pr
          quantity := oq
          executed_qty := o.executedQty.getD oq
          cummulative_quote_qty := o.cummulativeQuoteQty.getD 0
          time := o.transactTime.getD (o.time.getD 0)
          update_time :=
            o.updateTime.getD (o.transactTime.getD (o.time.getD 0)) }
  | _, _, _, _, _, _ => none

/-- What `MEXCSpotClient.create_order` returns after the SDK call succeeds:
the formatted order, or — when `_format_order` raises `KeyError` — the raw
native payload (mexc_spot.py lines 129-136). -/
inductive MexcCreateOrderReturn
  | formatted (f : MexcFormattedOrder)
  | raw (o : MexcOrderPayload)
  deriving DecidableEq, Repr

/-- The post-SDK-success tail of `MEXCSpotClient.create_order`. -/
def mexcCreateOrderSuccess (o : MexcOrderPayload) : MexcCreateOrderReturn :=
  match mexcFormatOrder o with
  | some f => .formatted f
  | none => .raw o

/-- The parts of Bybit's `place_order` response read by
`BybitSpotClient.create_order`: `retCode`, `retMsg` and
`result.orderId`. -/
structure BybitPlaceResult where
  retCode : Int
  retMsg : String
  orderId : String
  deriving DecidableEq, Repr

/-- `BybitSpotClient.create_order` (bybit_spot.py lines 102-116) after the
network calls: on `retCode = 0` it formats the first entry of the follow-up
`get_order_history` detail list (`details`); an empty list raises
`IndexError` ("list index out of range") and a nonzero `retCode` raises
`ExchangeAPIError("Order failed: ...")`, both re-wrapped by the blanket
handler as `ExchangeAPIError("Failed to create order: ...")`. -/
def bybitCreateOrder (resp : BybitPlaceResult)
    (details : List BybitOrderPayload) : Except PyExc CanonicalOrder :=
  if resp.retCode = 0 then
    match details with
    | [] => .error (.exchangeAPIError
        "Failed to create order: list index out of range")
    | d :: _ => .ok (bybitFormatOrder d)
  else
    .error (.exchangeAPIError
      ("Failed to create order: Order failed: " ++ resp.retMsg))

/-- The parts of OKX's `place_order` response read by
`OKXSpotClient.create_order`: `code`, `msg` and `data[0].ordId`. -/
structure OkxPlaceResult where
  code : String
  msg : String
  ordId : String
  deriving DecidableEq, Repr

/-- The parts of OKX's follow-up `get_order` response read by
`OKXSpotClient.create_order`. -/
structure OkxGetOrderResult where
  code : String
  msg : String
  data : List OkxOrderPayload
  deriving DecidableEq, Repr

/-- `OKXSpotClient.create_order` (okx_spot.py lines 111-125) after the
network calls: on `code = "0"` for both the placement and the internal
follow-up detail fetch it formats `data[0]`; every failure is an
`ExchangeAPIError` wrapped by the blanket handler. -/
def okxCreateOrder (place : OkxPlaceResult) (details : OkxGetOrderResult) :
    Except PyExc CanonicalOrder :=
  if place.code = "0" then
    if details.code = "0" then
      match details.data with
      | [] => .error (.exchangeAPIError
          "Failed to create order: list index out of range")
      | d :: _ => .ok (okxFormatOrder d)
    else
      .error (.exchangeAPIError
        ("Failed to create order: Failed to get order details: "
          ++ details.msg))
  else
    .error (.exchangeAPIError
      ("Failed to create order: Order failed: " ++ place.msg))

/-- A normalized balance entry: the value dict `\x7b'free', 'locked',
'total'\x7d` each adapter's `get_balance` builds per asset. -/
structure BalanceEntry where
  free : ℚ
  locked : ℚ
  total : ℚ
  deriving DecidableEq, Repr

/-- What `get_balance` returns: a single asset's entry, or a mapping from
asset to entry. -/
inductive BalanceResult
  | entry (e : BalanceEntry)
  | mapping (m : List (String × BalanceEntry))
  deriving DecidableEq, Repr

/-- Python `dict.get k` on an association list with distinct keys
(first-match lookup). -/
def dictGet {α : Type} (m : List (String × α)) (k : String) : Option α :=
  (m.find? (fun p => decide (p.1 = k))).map (fun p => p.2)

/-- Python `dict` assignment `m[k] = v`: overwrite the existing entry or
append a new one. -/
def dictSet {α : Type} (m : List (String × α)) (k : String) (v : α) :
    List (String × α) :=
  if (m.find? (fun p => decide (p.1 = k))).isSome then
    m.map (fun p => if p.1 = k then (p.1, v) else p)
  else m ++ [(k, v)]

/-- The shared return expression
`balances.get(asset, balances) if asset else balances` appearing verbatim at
the end of `get_balance` in the Binance, MEXC, Bybit, OKX and KuCoin
adapters: with a truthy `asset`, `dict.get` falls back to the *whole
mapping* when the asset is not a key. -/
def pyGetBalanceReturn (balances : List (String × BalanceEntry))
    (asset : Option String) : BalanceResult :=
  if pyFalsyStr asset then .mapping balances
  else
    match asset with
    | some a =>
        match dictGet balances a with
        | some e => .entry e
        | none => .mapping balances
    | none => .mapping balances

/-- One element of Binance's `account['balances']` list. -/
structure BinanceBalanceRow where
  asset : String
  free : ℚ
  locked : ℚ
  deriving DecidableEq, Repr

/-- The dict comprehension of `BinanceSpotClient.get_balance`
(binance_spot.py lines 43-51): keep assets with a positive free or locked
component and recompute `total` as `free + locked`. -/
def binanceBalances (rows : List BinanceBalanceRow) :
    List (String × BalanceEntry) :=
  (rows.filter (fun b => decide (0 < b.free) || decide (0 < b.locked))).map
    (fun b => (b.asset, ⟨b.free, b.locked, b.free + b.locked⟩))

/-- `BinanceSpotClient.get_balance` over a successfully fetched account
payload. -/
def binanceGetBalance (rows : List BinanceBalanceRow)
    (asset : Option String) : BalanceResult :=
  pyGetBalanceReturn (binanceBalances rows) asset

/-- One element of MEXC's `account['balances']` list. -/
structure MexcBalanceRow where
  asset : String
  free : ℚ
  locked : ℚ
  deriving DecidableEq, Repr

/-- The dict comprehension of `MEXCSpotClient.get_balance` (mexc_spot.py
lines 46-54), textually the same computation as Binance's. -/
def mexcBalances (rows : List MexcBalanceRow) :
    List (String × BalanceEntry) :=
  (rows.filter (fun b => decide (0 < b.free) || decide (0 < b.locked))).map
    (fun b => (b.asset, ⟨b.free, b.locked, b.free + b.locked⟩))

/-- `MEXCSpotClient.get_balance` over a successfully fetched account
payload. -/
def mexcGetBalance (rows : List MexcBalanceRow) (asset : Option String) :
    BalanceResult :=
  pyGetBalanceReturn (mexcBalances rows) asset

/-- One element of Bybit's `response['result']['list']`. -/
structure BybitCoinRow where
  coin : String
  free : ℚ
  locked : ℚ
  total : ℚ
  deriving DecidableEq, Repr

/-- The loop condition `if not asset or currency == asset` of Bybit's
`get_balance`. -/
def bybitRowMatches (asset : Option String) (c : BybitCoinRow) : Bool :=
  pyFalsyStr asset
    || (match asset with | some a => decide (c.coin = a) | none => false)

/-- The loop of `BybitSpotClient.get_balance` (bybit_spot.py lines 49-56):
keep coins matching the queried asset (or all of them when no asset is
given) and copy `free`, `locked` and `total` verbatim from the native
row. -/
def bybitBalances (rows : List BybitCoinRow) (asset : Option String) :
    List (String × BalanceEntry) :=
  rows.foldl
    (fun acc c =>
      if bybitRowMatches asset c then
        dictSet acc c.coin ⟨c.free, c.locked, c.total⟩
      else acc)
    []

/-- `BybitSpotClient.get_balance` over a successfully fetched wallet
payload. -/
def bybitGetBalance (rows : List BybitCoinRow) (asset : Option String) :
    BalanceResult :=
  pyGetBalanceReturn (bybitBalances rows asset) asset

/-- One element of OKX's `response['data'][0]['details']`. -/
structure OkxCurrencyRow where
  ccy : String
  availBal : ℚ
  frozenBal : ℚ
  cashBal : ℚ
  deriving DecidableEq, Repr

/-- The loop condition `if not asset or ccy == asset` of OKX's
`get_balance`. -/
def okxRowMatches (asset : Option String) (c : OkxCurrencyRow) : Bool :=
  pyFalsyStr asset
    || (match asset with | some a => decide (c.ccy = a) | none => false)

/-- The loop of `OKXSpotClient.get_balance` (okx_spot.py lines 60-68): keep
currencies matching the queried asset (or all) and take `free` from
`availBal`, `locked` from `frozenBal` and `total` verbatim from `cashBal`. -/
def okxBalances (rows : List OkxCurrencyRow) (asset : Option String) :
    List (String × BalanceEntry) :=
  rows.foldl
    (fun acc c =>
      if okxRowMatches asset c then
        dictSet acc c.ccy ⟨c.availBal, c.frozenBal, c.cashBal⟩
      else acc)
    []

/-- `OKXSpotClient.get_balance` over a successful (`code = '0'`) balance
payload. -/
def okxGetBalance (rows : List OkxCurrencyRow) (asset : Option String) :
    BalanceResult :=
  pyGetBalanceReturn (okxBalances rows asset) asset

/-- One element of KuCoin's `get_account_list` response.  When an asset is
queried, the SDK call is made with `currency=asset`, so the rows are already
server-filtered to that currency. -/
structure KucoinAccountRow where
  currency : String
  available : ℚ
  holds : ℚ
  balance : ℚ
  deriving DecidableEq, Repr

/-- The loop body of `KuCoinSpotClient.get_balance` (kucoin_spot.py lines
63-75): first sight of a currency copies `available`/`holds`/`balance`
verbatim; later account rows of the same currency are added
component-wise. -/
def kucoinBalancesStep (acc : List (String × BalanceEntry))
    (r : KucoinAccountRow) : List (String × BalanceEntry) :=
  if (dictGet acc r.currency).isSome then
    acc.map (fun p =>
      if p.1 = r.currency then
        (p.1, ⟨p.2.free + r.available, p.2.locked + r.holds,
               p.2.total + r.balance⟩)
      else p)
  else acc ++ [(r.currency, ⟨r.available, r.holds, r.balance⟩)]

/-- The full aggregation loop of `KuCoinSpotClient.get_balance`. -/
def kucoinBalances (rows : List KucoinAccountRow) :
    List (String × BalanceEntry) :=
  rows.foldl kucoinBalancesStep []

/-- `KuCoinSpotClient.get_balance` over the (possibly server-filtered)
account list. -/
def kucoinGetBalance (rows : List KucoinAccountRow) (asset : Option String) :
    BalanceResult :=
  pyGetBalanceReturn (kucoinBalances rows) asset

/-- A value in the `options` dict `MEXCSpotClient.create_order` builds:
a number, a string, or Python `None` (the LIMIT branch stores
`quantity`/`price` unchecked, so `None` can land in the dict). -/
inductive MexcOptValue
  | num (q : ℚ)
  | str (s : String)
  | pyNone
  deriving DecidableEq, Repr

/-- An optional float as stored into the options dict by the LIMIT branch. -/
def mexcOptionValue : Option ℚ → MexcOptValue
  | none => .pyNone
  | some q => .num q

/-- The option-building section of `MEXCSpotClient.create_order`
(mexc_spot.py lines 93-110): `quoteOrderQty` is set only for a truthy
`quote_order_qty` on a MARKET BUY; a MARKET order adds `quantity` only when
truthy; a LIMIT order stores `quantity` and `price` unchecked (even `None`)
plus `timeInForce` (kwargs are modelled empty, so the default `'GTC'`).
No branch raises. -/
def mexcBuildOptions (side orderType : String)
    (quantity price quoteOrderQty : Option ℚ) :
    List (String × MexcOptValue) :=
  if pyUpper orderType = "MARKET" then
    (if pyTruthyQ quoteOrderQty = true ∧ pyUpper side = "BUY" then
      [("quoteOrderQty", MexcOptValue.num (quoteOrderQty.getD 0))]
    else [])
    ++ (if pyTruthyQ quantity = true then
      [("quantity", MexcOptValue.num (quantity.getD 0))]
    else [])
  else if pyUpper orderType = "LIMIT" then
    [("quantity", mexcOptionValue quantity),
     ("price", mexcOptionValue price),
     ("timeInForce", MexcOptValue.str "GTC")]
  else []

/-- Everything `MEXCSpotClient.create_order` does between entry and the
`self.client.new_order` network call: build the options and add
`newOrderRespType = 'FULL'`.  There is no validation of any kind on this
path, so it never produces an exception. -/
def mexcCreateOrderPreNetwork (_symbol side orderType : String)
    (quantity price quoteOrderQty : Option ℚ) :
    Except PyExc (List (String × MexcOptValue)) :=
  .ok (mexcBuildOptions side orderType quantity price quoteOrderQty
    ++ [("newOrderRespType", MexcOptValue.str "FULL")])

/-- The `params` dict `BinanceSpotClient.create_order` sends. -/
structure BinanceOrderParams where
  symbol : String
  side : String
  type : String
  quantity : ℚ
  price : Option ℚ
  timeInForce : Option String
  deriving DecidableEq, Repr

/-- The pre-network section of `BinanceSpotClient.create_order`
(binance_spot.py lines 83-97): a LIMIT order with a falsy price raises
`ValueError("Price is required for LIMIT orders")`, which the blanket
`except Exception` re-raises as
`ExchangeAPIError("Failed to create order: ...")` — before any network
call. -/
def binanceCreateOrderPreNetwork (symbol side orderType : String)
    (quantity : ℚ) (price : Option ℚ) : Except PyExc BinanceOrderParams :=
  if pyUpper orderType = "LIMIT" then
    if pyTruthyQ price = false then
      .error (.exchangeAPIError
        "Failed to create order: Price is required for LIMIT orders")
    else
      .ok { symbol := symbol, side := pyUpper side, type := pyUpper orderType,
            quantity := quantity, price := price, timeInForce := some "GTC" }
  else
    .ok { symbol := symbol, side := pyUpper side, type := pyUpper orderType,
          quantity := quantity, price := none, timeInForce := none }

/-- The `params` dict `KuCoinSpotClient.create_order` sends (lowercased side
and type, quantity under the key `size`). -/
structure KucoinOrderParams where
  symbol : String
  side : String
  type : String
  size : ℚ
  price : Option ℚ
  deriving DecidableEq, Repr

/-- The pre-network section of `KuCoinSpotClient.create_order`
(kucoin_spot.py lines 104-116): same LIMIT-price check and blanket
re-wrapping as Binance. -/
def kucoinCreateOrderPreNetwork (symbol side orderType : String)
    (quantity : ℚ) (price : Option ℚ) : Except PyExc KucoinOrderParams :=
  if pyUpper orderType = "LIMIT" then
    if pyTruthyQ price = false then
      .error (.exchangeAPIError
        "Failed to create order: Price is required for LIMIT orders")
    else
      .ok { symbol := symbol, side := pyLower side, type := pyLower orderType,
            size := quantity, price := price }
  else
    .ok { symbol := symbol, side := pyLower side, type := pyLower orderType,
          size := quantity, price := none }

/-- The `params` dict `BybitSpotClient.create_order` sends (`qty` and `price`
are stringified on the wire; modelled as the numbers). -/
structure BybitOrderParams where
  category : String
  symbol : String
  side : String
  orderType : String
  qty : ℚ
  price : Option ℚ
  deriving DecidableEq, Repr

/-- The pre-network section of `BybitSpotClient.create_order` (bybit_spot.py
lines 88-100): same LIMIT-price check and blanket re-wrapping. -/
def bybitCreateOrderPreNetwork (symbol side orderType : String)
    (quantity : ℚ) (price : Option ℚ) : Except PyExc BybitOrderParams :=
  if pyUpper orderType = "LIMIT" then
    if pyTruthyQ price = false then
      .error (.exchangeAPIError
        "Failed to create order: Price is required for LIMIT orders")
    else
      .ok { category := "spot", symbol := symbol, side := pyUpper side,
            orderType := pyUpper orderType, qty := quantity, price := price }
  else
    .ok { category := "spot", symbol := symbol, side := pyUpper side,
          orderType := pyUpper orderType, qty := quantity, price := none }

/-- The `params` dict `OKXSpotClient.create_order` sends. -/
structure OkxOrderParams where
  instId : String
  tdMode : String
  side : String
  ordType : String
  sz : ℚ
  px : Option ℚ
  deriving DecidableEq, Repr

/-- The pre-network section of `OKXSpotClient.create_order` (okx_spot.py
lines 97-109): same LIMIT-price check and blanket re-wrapping. -/
def okxCreateOrderPreNetwork (symbol side orderType : String)
    (quantity : ℚ) (price : Option ℚ) : Except PyExc OkxOrderParams :=
  if pyUpper orderType = "LIMIT" then
    if pyTruthyQ price = false then
      .error (.exchangeAPIError
        "Failed to create order: Price is required for LIMIT orders")
    else
      .ok { instId := symbol, tdMode := "cash", side := pyLower side,
            ordType := pyLower orderType, sz := quantity, px := price }
  else
    .ok { instId := symbol, tdMode := "cash", side := pyLower side,
          ordType := pyLower orderType, sz := quantity, px := none }

/-- The character `\x7b`. -/
def lbraceChar : Char := Char.ofNat 123

/-- The character `\x7d`. -/
def rbraceChar : Char := Char.ofNat 125

/-- The literal `'\x7b"code":'` the MEXC error path searches for. -/
def codeKeyMarker : String :=
  String.mk [lbraceChar, '"', 'c', 'o', 'd', 'e', '"', ':']

/-- Is `pat` a prefix of `hay`? (structural, so the kernel can evaluate
it). -/
def isPrefixChars : List Char → List Char → Bool
  | [], _ => true
  | _ :: _, [] => false
  | p :: ps, h :: hs => if p = h then isPrefixChars ps hs else false

/-- Does `pat` occur in `hay`? -/
def containsSubAux (pat : List Char) : List Char → Bool
  | [] => isPrefixChars pat []
  | h :: hs => if isPrefixChars pat (h :: hs) then true else containsSubAux pat hs

/-- Python `pat in s` for a nonempty `pat`. -/
def pyContains (s pat : String) : Bool := containsSubAux pat.data s.data

/-- The remainder of `hay` after the first occurrence of `pat`, if any. -/
def splitAfterFirstAux (pat : List Char) : List Char → Option (List Char)
  | [] => if isPrefixChars pat [] then some [] else none
  | h :: hs =>
      if isPrefixChars pat (h :: hs) then some ((h :: hs).drop pat.length)
      else splitAfterFirstAux pat hs

/-- Python `s.split(pat, 1)[1]` in the branch where `pat in s` holds. -/
def pySplitAfterFirst (s pat : String) : String :=
  String.mk ((splitAfterFirstAux pat.data s.data).getD [])

/-- ASCII whitespace for the model of Python `str.strip`. -/
def isWhiteChar (c : Char) : Bool :=
  c = ' ' || c = '\t' || c = '\n' || c = '\r'

/-- Drop leading whitespace. -/
def dropLeadingWhite : List Char → List Char
  | [] => []
  | c :: cs => if isWhiteChar c then dropLeadingWhite cs else c :: cs

/-- Python `str.strip` (ASCII whitespace). -/
def pyStrip (s : String) : String :=
  String.mk ((dropLeadingWhite ((dropLeadingWhite s.data).reverse)).reverse)

/-- Python `s.find(c)` (position of the first occurrence). -/
def pyFind (s : String) (c : Char) : Option Nat :=
  s.data.findIdx? (fun ch => decide (ch = c))

/-- Python `s.rfind(c)` (position of the last occurrence). -/
def pyRFind (s : String) (c : Char) : Option Nat :=
  match s.data.reverse.findIdx? (fun ch => decide (ch = c)) with
  | some i => some (s.data.length - 1 - i)
  | none => none

/-- Python `s[i:j]`. -/
def pySlice (s : String) (i j : Nat) : String :=
  String.mk ((s.data.drop i).take (j - i))

/-- `error_msg[error_msg.find('\x7b'):error_msg.rfind('\x7d')+1]` from the
MEXC error path.  In the branch using it the message contains
`codeKeyMarker`, so `find` succeeds; a missing closing brace makes Python's
`rfind` return `-1` and the slice empty, modelled by the `0` fallback. -/
def mexcExtractJson (errorMsg : String) : String :=
  let i := (pyFind errorMsg lbraceChar).getD 0
  let j := match pyRFind errorMsg rbraceChar with
    | some k => k + 1
    | none => 0
  pySlice errorMsg i j

/-- The error path of `MEXCSpotClient.create_order` (mexc_spot.py lines
138-166), as a function from the stringified SDK exception to the exception
that propagates.  `jsonLoadsOk` abstracts the third-party `json.loads`
(whether the extracted text parses); a parse failure, like the
`ValueError("No JSON found in error message")` of the final branch, is caught
by `except (json.JSONDecodeError, ValueError)` and becomes
`HTTPException(400, \x7b"message": error_msg\x7d)`.  Every branch raises a
bare `fastapi.HTTPException`, never `ValidationError` or
`ExchangeAPIError`. -/
def mexcCreateOrderFailurePath (errorMsg : String)
    (jsonLoadsOk : String → Bool) : PyExc :=
  if pyContains errorMsg "status code 400:" then
    let jsonText := pyStrip (pySplitAfterFirst errorMsg "status code 400:")
    if jsonLoadsOk jsonText then .httpException 400 (.parsedJson jsonText)
    else .httpException 400 (.messageDict errorMsg)
  else if pyContains errorMsg codeKeyMarker then
    let jsonText := mexcExtractJson errorMsg
    if jsonLoadsOk jsonText then .httpException 400 (.parsedJson jsonText)
    else .httpException 400 (.messageDict errorMsg)
  else .httpException 400 (.messageDict errorMsg)

/-- A `json.loads` oracle under which nothing parses (used to exercise the
fallback branch at a concrete input). -/
def jsonNeverParses : String → Bool := fun _ => false

/-- C1 counterexample: the claim asserts the factory's support table contains
binance+futures, but `create_client(binance, futures, ...)` falls through the
binance arm (which only handles spot) to the final
`ValidationError("Unsupported exchange/market combination: ...")`. -/
theorem c1_counterexample :
    createClient .binance .futures "key" "secret" none false
      = .error (.validationError
          "Unsupported exchange/market combination: binance/futures") := by
  rfl

/-- C1 (amended): with a non-empty passphrase supplied where required, the
factory returns the corresponding adapter for every pair in the support
table — which contains exactly the five spot pairs and no futures pair at
all — and fails with the `ValidationError("Unsupported exchange/market
combination: ...")` for every pair outside it (binance+futures included). -/
theorem c1_theorem (exchange : ExchangeType) (marketType : MarketType)
    (apiKey apiSecret : String) (passphrase : Option String) (testnet : Bool)
    (hpp : exchange = .kucoin ∨ exchange = .okx → pyFalsyStr passphrase = false) :
    ((exchange, marketType) ∈ supportTable →
      createClient exchange marketType apiKey apiSecret passphrase testnet
        = .ok (correspondingClient exchange apiKey apiSecret passphrase testnet))
    ∧ ((exchange, marketType) ∉ supportTable →
      createClient exchange marketType apiKey apiSecret passphrase testnet
        = .error (.validationError
            ("Unsupported exchange/market combination: "
              ++ exchange.value ++ "/" ++ marketType.value))) := by
  cases exchange <;> cases marketType <;>
    simp_all [createClient, supportTable, correspondingClient]

/-- C1 witness: `c1_theorem` applied at kucoin+spot (supported, client built
with the passphrase) and at okx+futures (outside the table, rejected). -/
theorem c1_witness :
    createClient .kucoin .spot "key" "secret" (some "pw") false
      = .ok (.kucoinSpot "key" "secret" "pw" false)
    ∧ createClient .okx .futures "key" "secret" (some "pw") false
      = .error (.validationError
          "Unsupported exchange/market combination: okx/futures") := by
  constructor
  · exact (c1_theorem .kucoin .spot "key" "secret" (some "pw") false
      (fun _ => rfl)).1 (by decide)
  · exact (c1_theorem .okx .futures "key" "secret" (some "pw") false
      (fun _ => rfl)).2 (by decide)

/-- C8: every native status in the Bybit and OKX mapping tables maps to one of
the seven canonical statuses, and every native status absent from the table is
returned as its uppercase form rather than raising. -/
theorem c8_theorem :
    (∀ p ∈ bybitStatusMap, p.2 ∈ canonicalStatuses)
    ∧ (∀ p ∈ okxStatusMap, p.2 ∈ canonicalStatuses)
    ∧ (∀ s : String, lookupTable bybitStatusMap s = none →
        bybitMapOrderStatus s = pyUpper s)
    ∧ (∀ s : String, lookupTable okxStatusMap s = none →
        okxMapOrderStatus s = pyUpper s) := by
  refine ⟨by decide, by decide, ?_, ?_⟩
  · intro s h
    simp [bybitMapOrderStatus, h]
  · intro s h
    simp [okxMapOrderStatus, h]

/-- C8 witness: `c8_theorem` applied to the table entry ("Cancelled",
"CANCELED") and to the unlisted status "weird_state", which maps to
"WEIRD_STATE". -/
theorem c8_witness :
    "CANCELED" ∈ canonicalStatuses
    ∧ bybitMapOrderStatus "weird_state" = "WEIRD_STATE"
    ∧ okxMapOrderStatus "weird_state" = "WEIRD_STATE" := by
  refine ⟨c8_theorem.1 ("Cancelled", "CANCELED") (by decide), ?_, ?_⟩
  · exact (c8_theorem.2.2.1 "weird_state" rfl).trans (by decide)
  · exact (c8_theorem.2.2.2 "weird_state" rfl).trans (by decide)

/-- Membership after a Python dict assignment: the entry was already present
or is the assigned pair. -/
theorem mem_dictSet {α : Type} {m : List (String × α)} {k : String} {v : α}
    {p : String × α} (h : p ∈ dictSet m k v) : p ∈ m ∨ p = (k, v) := by
  unfold dictSet at h
  split at h
  · rcases List.mem_map.1 h with ⟨q, hq, hEq⟩
    by_cases hk : q.1 = k
    · right
      rw [if_pos hk] at hEq
      rw [← hEq, hk]
    · left
      rw [if_neg hk] at hEq
      rwa [← hEq]
  · rcases List.mem_append.1 h with h1 | h2
    · exact Or.inl h1
    · right
      simpa using h2

/-- Membership in a conditional dict-building loop: every entry of the result
is an initial entry or comes from some row satisfying the condition's
branch. -/
theorem mem_foldl_dictSet {α β : Type} (key : β → String) (val : β → α)
    (cond : β → Bool) :
    ∀ (rows : List β) (init : List (String × α)) (p : String × α),
      p ∈ rows.foldl
        (fun acc r => if cond r then dictSet acc (key r) (val r) else acc)
        init →
      p ∈ init ∨ ∃ r, r ∈ rows ∧ p = (key r, val r) := by
  intro rows
  induction rows with
  | nil => exact fun init p h => Or.inl h
  | cons r rs ih =>
      intro init p h
      rw [List.foldl_cons] at h
      rcases ih _ p h with hmem | ⟨r', hr', hp⟩
      · by_cases hc : cond r = true
        · rw [if_pos hc] at hmem
          rcases mem_dictSet hmem with h1 | h2
          · exact Or.inl h1
          · exact Or.inr ⟨r, List.mem_cons_self r rs, h2⟩
        · rw [if_neg hc] at hmem
          exact Or.inl hmem
      · exact Or.inr ⟨r', List.mem_cons_of_mem r hr', hp⟩

/-- A dict-building loop whose condition rejects every row builds the empty
dict. -/
theorem foldl_dictSet_nil {α β : Type} (key : β → String) (val : β → α)
    (cond : β → Bool) :
    ∀ rows : List β, (∀ r ∈ rows, cond r = false) →
      rows.foldl
        (fun acc r => if cond r then dictSet acc (key r) (val r) else acc)
        [] = [] := by
  intro rows
  induction rows with
  | nil => exact fun _ => rfl
  | cons r rs ih =>
      intro h
      rw [List.foldl_cons, if_neg]
      · exact ih fun x hx => h x (List.mem_cons_of_mem r hx)
      · simp [h r (List.mem_cons_self r rs)]

/-- C9 counterexample: Bybit's `get_balance` copies the native `total` field
verbatim; on a wallet row with `free=1, locked=2, total=5` the returned entry
has `total = 5 ≠ 1 + 2`, refuting "total is recomputed as free+locked by this
layer" for every adapter. -/
theorem c9_counterexample :
    bybitGetBalance [{ coin := "BTC", free := 1, locked := 2, total := 5 }]
        none
      = .mapping [("BTC", { free := 1, locked := 2, total := 5 })]
    ∧ (5 : ℚ) ≠ 1 + 2 := by
  refine ⟨rfl, by norm_num⟩

/-- C9 (amended): Binance and MEXC recompute every entry's `total` as
`free + locked`; Bybit and OKX copy the native `total`/`cashBal` field
verbatim into each entry; KuCoin likewise copies the native `balance` field
(shown for a single account row; rows of the same currency are summed). -/
theorem c9_theorem :
    (∀ (rows : List BinanceBalanceRow) (p : String × BalanceEntry),
        p ∈ binanceBalances rows → p.2.total = p.2.free + p.2.locked)
    ∧ (∀ (rows : List MexcBalanceRow) (p : String × BalanceEntry),
        p ∈ mexcBalances rows → p.2.total = p.2.free + p.2.locked)
    ∧ (∀ (rows : List BybitCoinRow) (asset : Option String)
        (p : String × BalanceEntry),
        p ∈ bybitBalances rows asset →
        ∃ r, r ∈ rows ∧ p = (r.coin, ⟨r.free, r.locked, r.total⟩))
    ∧ (∀ (rows : List OkxCurrencyRow) (asset : Option String)
        (p : String × BalanceEntry),
        p ∈ okxBalances rows asset →
        ∃ r, r ∈ rows ∧ p = (r.ccy, ⟨r.availBal, r.frozenBal, r.cashBal⟩))
    ∧ (∀ r : KucoinAccountRow,
        kucoinBalances [r]
          = [(r.currency, ⟨r.available, r.holds, r.balance⟩)]) := by
  refine ⟨?_, ?_, ?_, ?_, ?_⟩
  · intro rows p hp
    rcases List.mem_map.1 hp with ⟨b, _, hEq⟩
    rw [← hEq]
  · intro rows p hp
    rcases List.mem_map.1 hp with ⟨b, _, hEq⟩
    rw [← hEq]
  · intro rows asset p hp
    unfold bybitBalances at hp
    rcases mem_foldl_dictSet (fun c : BybitCoinRow => c.coin)
        (fun c => (⟨c.free, c.locked, c.total⟩ : BalanceEntry))
        (bybitRowMatches asset) rows [] p hp with hnil | hex
    · simp at hnil
    · exact hex
  · intro rows asset p hp
    unfold okxBalances at hp
    rcases mem_foldl_dictSet (fun c : OkxCurrencyRow => c.ccy)
        (fun c => (⟨c.availBal, c.frozenBal, c.cashBal⟩ : BalanceEntry))
        (okxRowMatches asset) rows [] p hp with hnil | hex
    · simp at hnil
    · exact hex
  · intro r
    simp [kucoinBalances, kucoinBalancesStep, dictGet]

/-- C9 witness: `c9_theorem` applied to a Binance row (total recomputed as
1+2=3) and to a Bybit row (entry copied verbatim from the native row with
total 5). -/
theorem c9_witness :
    (("BTC", ({ free := 1, locked := 2, total := 3 } : BalanceEntry))
        ∈ binanceBalances [{ asset := "BTC", free := 1, locked := 2 }]
      ∧ ({ free := 1, locked := 2, total := 3 } : BalanceEntry).total
          = ({ free := 1, locked := 2, total := 3 } : BalanceEntry).free
            + ({ free := 1, locked := 2, total := 3 } : BalanceEntry).locked)
    ∧ ∃ r, r ∈ [({ coin := "BTC", free := 1, locked := 2, total := 5 } :
          BybitCoinRow)]
        ∧ (("BTC", ({ free := 1, locked := 2, total := 5 } : BalanceEntry))
            : String × BalanceEntry) = (r.coin, ⟨r.free, r.locked, r.total⟩) := by
  constructor
  · have hEq : binanceBalances [{ asset := "BTC", free := 1, locked := 2 }]
        = [("BTC", { free := 1, locked := 2, total := 3 })] := by
      norm_num [binanceBalances]
    have hmem : ("BTC", ({ free := 1, locked := 2, total := 3 } : BalanceEntry))
        ∈ binanceBalances [{ asset := "BTC", free := 1, locked := 2 }] := by
      rw [hEq]
      exact List.mem_singleton_self _
    exact ⟨hmem, c9_theorem.1 [{ asset := "BTC", free := 1, locked := 2 }] _ hmem⟩
  · have hEq : bybitBalances
        [{ coin := "BTC", free := 1, locked := 2, total := 5 }] none
        = [("BTC", { free := 1, locked := 2, total := 5 })] := rfl
    refine c9_theorem.2.2.1
      [{ coin := "BTC", free := 1, locked := 2, total := 5 }] none
      ("BTC", { free := 1, locked := 2, total := 5 }) ?_
    rw [hEq]
    exact List.mem_singleton_self _

/-- C10 counterexample: Bybit's `get_balance` filters the mapping by the
queried asset before the `dict.get` fallback, so querying an asset absent
from the wallet returns the *empty* mapping, not the entire two-asset
mapping the unfiltered call returns. -/
theorem c10_counterexample :
    bybitGetBalance
        [{ coin := "BTC", free := 1, locked := 0, total := 1 },
         { coin := "ETH", free := 2, locked := 0, total := 2 }]
        (some "DOGE")
      = .mapping []
    ∧ bybitGetBalance
        [{ coin := "BTC", free := 1, locked := 0, total := 1 },
         { coin := "ETH", free := 2, locked := 0, total := 2 }]
        none
      = .mapping
          [("BTC", { free := 1, locked := 0, total := 1 }),
           ("ETH", { free := 2, locked := 0, total := 2 })] := by
  refine ⟨rfl, rfl⟩

/-- C10 (amended): querying an asset with no entry returns the whole computed
mapping as the `dict.get` fallback — for Binance and MEXC that is the entire
mapping of all (nonzero) assets, while Bybit, OKX and KuCoin filter the
mapping by the queried asset first, so an unknown asset yields the empty
mapping; no adapter returns an error or an absent value. -/
theorem c10_theorem :
    (∀ (rows : List BinanceBalanceRow) (a : String),
        dictGet (binanceBalances rows) a = none →
        binanceGetBalance rows (some a) = .mapping (binanceBalances rows))
    ∧ (∀ (rows : List MexcBalanceRow) (a : String),
        dictGet (mexcBalances rows) a = none →
        mexcGetBalance rows (some a) = .mapping (mexcBalances rows))
    ∧ (∀ (rows : List BybitCoinRow) (a : String), a ≠ "" →
        (∀ r ∈ rows, r.coin ≠ a) →
        bybitGetBalance rows (some a) = .mapping [])
    ∧ (∀ (rows : List OkxCurrencyRow) (a : String), a ≠ "" →
        (∀ r ∈ rows, r.ccy ≠ a) →
        okxGetBalance rows (some a) = .mapping [])
    ∧ (∀ a : String, a ≠ "" → kucoinGetBalance [] (some a) = .mapping []) := by
  refine ⟨?_, ?_, ?_, ?_, ?_⟩
  · intro rows a h
    unfold binanceGetBalance pyGetBalanceReturn
    by_cases he : String.isEmpty a = true
    · simp [pyFalsyStr, he]
    · simp [pyFalsyStr, he, h]
  · intro rows a h
    unfold mexcGetBalance pyGetBalanceReturn
    by_cases he : String.isEmpty a = true
    · simp [pyFalsyStr, he]
    · simp [pyFalsyStr, he, h]
  · intro rows a ha h
    have he : String.isEmpty a = false := by
      rw [Bool.eq_false_iff]
      intro hc
      exact ha ((String.isEmpty_iff a).1 hc)
    have hb : bybitBalances rows (some a) = [] := by
      unfold bybitBalances
      exact foldl_dictSet_nil (fun c : BybitCoinRow => c.coin)
        (fun c => (⟨c.free, c.locked, c.total⟩ : BalanceEntry))
        (bybitRowMatches (some a))
        rows (fun r hr => by simp [bybitRowMatches, pyFalsyStr, he, h r hr])
    unfold bybitGetBalance pyGetBalanceReturn
    rw [hb]
    simp [pyFalsyStr, he, dictGet]
  · intro rows a ha h
    have he : String.isEmpty a = false := by
      rw [Bool.eq_false_iff]
      intro hc
      exact ha ((String.isEmpty_iff a).1 hc)
    have hb : okxBalances rows (some a) = [] := by
      unfold okxBalances
      exact foldl_dictSet_nil (fun c : OkxCurrencyRow => c.ccy)
        (fun c => (⟨c.availBal, c.frozenBal, c.cashBal⟩ : BalanceEntry))
        (okxRowMatches (some a))
        rows (fun r hr => by simp [okxRowMatches, pyFalsyStr, he, h r hr])
    unfold okxGetBalance pyGetBalanceReturn
    rw [hb]
    simp [pyFalsyStr, he, dictGet]
  · intro a ha
    have he : String.isEmpty a = false := by
      rw [Bool.eq_false_iff]
      intro hc
      exact ha ((String.isEmpty_iff a).1 hc)
    unfold kucoinGetBalance pyGetBalanceReturn kucoinBalances
    simp [pyFalsyStr, he, dictGet]

/-- C10 witness: `c10_theorem` applied to a Binance wallet queried for an
unknown asset (whole mapping returned) and to a Bybit wallet queried for an
unknown asset (empty mapping returned). -/
theorem c10_witness :
    binanceGetBalance [{ asset := "BTC", free := 1, locked := 2 }]
        (some "DOGE")
      = .mapping (binanceBalances [{ asset := "BTC", free := 1, locked := 2 }])
    ∧ bybitGetBalance [{ coin := "BTC", free := 1, locked := 0, total := 1 }]
        (some "DOGE")
      = .mapping [] := by
  constructor
  · exact c10_theorem.1 [{ asset := "BTC", free := 1, locked := 2 }] "DOGE" rfl
  · exact c10_theorem.2.2.1
      [{ coin := "BTC", free := 1, locked := 0, total := 1 }] "DOGE"
      (by decide) (by intro r hr; rw [List.mem_singleton.1 hr]; decide)

/-- C3 counterexample: when MEXC's `_format_order` raises `KeyError` (here:
a create-order response without the `symbol` key), `create_order` returns the
raw native payload instead of a canonical Order — the `except KeyError`
branch of mexc_spot.py lines 133-136. -/
theorem c3_counterexample :
    mexcCreateOrderSuccess
        { orderId := some "12345", symbol := none, status := some "FILLED",
          side := some "BUY", type := some "MARKET", price := some 100,
          origQty := some 1, executedQty := some 1,
          cummulativeQuoteQty := some 100,
          transactTime := some 1700000000000, time := none,
          updateTime := none }
      = .raw
        { orderId := some "12345", symbol := none, status := some "FILLED",
          side := some "BUY", type := some "MARKET", price := some 100,
          origQty := some 1, executedQty := some 1,
          cummulativeQuoteQty := some 100,
          transactTime := some 1700000000000, time := none,
          updateTime := none } := rfl

/-- C3 (amended): Bybit and OKX hide the two-phase placement — a successful
`create_order` always returns the normalizer's output on the internally
fetched detail record; MEXC returns its (differently shaped) normalized
record when formatting succeeds, but returns the raw native payload whenever
its `_format_order` raises `KeyError`. -/
theorem c3_theorem :
    (∀ (resp : BybitPlaceResult) (d : BybitOrderPayload)
        (rest : List BybitOrderPayload),
        resp.retCode = 0 →
        bybitCreateOrder resp (d :: rest) = .ok (bybitFormatOrder d))
    ∧ (∀ (place : OkxPlaceResult) (details : OkxGetOrderResult)
        (d : OkxOrderPayload) (rest : List OkxOrderPayload),
        place.code = "0" → details.code = "0" → details.data = d :: rest →
        okxCreateOrder place details = .ok (okxFormatOrder d))
    ∧ (∀ (o : MexcOrderPayload) (f : MexcFormattedOrder),
        mexcFormatOrder o = some f → mexcCreateOrderSuccess o = .formatted f)
    ∧ (∀ o : MexcOrderPayload,
        mexcFormatOrder o = none → mexcCreateOrderSuccess o = .raw o) := by
  refine ⟨?_, ?_, ?_, ?_⟩
  · intro resp d rest h
    simp [bybitCreateOrder, h]
  · intro place details d rest h1 h2 h3
    simp [okxCreateOrder, h1, h2, h3]
  · intro o f h
    simp [mexcCreateOrderSuccess, h]
  · intro o h
    simp [mexcCreateOrderSuccess, h]

/-- C3 witness: `c3_theorem` applied to a successful Bybit placement with a
one-element detail list, and to a MEXC payload with all required keys. -/
theorem c3_witness :
    bybitCreateOrder { retCode := 0, retMsg := "OK", orderId := "77" }
        [{ orderId := "77", symbol := "BTCUSDT", orderStatus := "Filled",
           side := "Buy", orderType := "Market", qty := 1, cumExecQty := 1,
           price := 0, createdTime := 1, updatedTime := 2,
           cumExecFee := some 0, feeTokenId := none, avgPrice := 100 }]
      = .ok (bybitFormatOrder
          { orderId := "77", symbol := "BTCUSDT", orderStatus := "Filled",
            side := "Buy", orderType := "Market", qty := 1, cumExecQty := 1,
            price := 0, createdTime := 1, updatedTime := 2,
            cumExecFee := some 0, feeTokenId := none, avgPrice := 100 })
    ∧ mexcCreateOrderSuccess
        { orderId := some "9", symbol := some "BTCUSDT",
          status := some "FILLED", side := some "BUY", type := some "MARKET",
          price := some 100, origQty := some 1, executedQty := some 1,
          cummulativeQuoteQty := some 100, transactTime := some 3,
          time := none, updateTime := none }
      = .formatted
        { order_id := "9", symbol := "BTCUSDT", status := "FILLED",
          side := "BUY", type := "MARKET", price := 100, quantity := 1,
          executed_qty := 1, cummulative_quote_qty := 100, time := 3,
          update_time := 3 } := by
  constructor
  · exact c3_theorem.1 { retCode := 0, retMsg := "OK", orderId := "77" }
      { orderId := "77", symbol := "BTCUSDT", orderStatus := "Filled",
        side := "Buy", orderType := "Market", qty := 1, cumExecQty := 1,
        price := 0, createdTime := 1, updatedTime := 2,
        cumExecFee := some 0, feeTokenId := none, avgPrice := 100 } [] rfl
  · exact c3_theorem.2.2.1
      { orderId := some "9", symbol := some "BTCUSDT",
        status := some "FILLED", side := some "BUY", type := some "MARKET",
        price := some 100, origQty := some 1, executedQty := some 1,
        cummulativeQuoteQty := some 100, transactTime := some 3,
        time := none, updateTime := none }
      { order_id := "9", symbol := "BTCUSDT", status := "FILLED",
        side := "BUY", type := "MARKET", price := 100, quantity := 1,
        executed_qty := 1, cummulative_quote_qty := 100, time := 3,
        update_time := 3 } rfl

/-- C4 counterexample: the Binance normalizer never derives the average
price from fills.  A Binance spot FULL response for a filled market order
carries a `fills` list but no `avgPrice` key, so `average_price` comes out
`None` although the filled quantity is 1 and the quantity-weighted mean of
the fills is 100. -/
theorem c4_counterexample :
    (binanceFormatOrder
        { orderId := 1, symbol := "BTCUSDT", status := "FILLED",
          side := "BUY", type := "MARKET", origQty := 1, executedQty := 1,
          price := 0, time := 1, updateTime := none, commission := none,
          commissionAsset := none, avgPrice := none,
          fills := [{ price := 100, qty := 1, commission := 0,
                      commissionAsset := "USDT" }] }).executed_qty = 1
    ∧ (binanceFormatOrder
        { orderId := 1, symbol := "BTCUSDT", status := "FILLED",
          side := "BUY", type := "MARKET", origQty := 1, executedQty := 1,
          price := 0, time := 1, updateTime := none, commission := none,
          commissionAsset := none, avgPrice := none,
          fills := [{ price := 100, qty := 1, commission := 0,
                      commissionAsset := "USDT" }] }).average_price = none
    ∧ fillsQuoteFunds [(100, 1)] / fillsQty [(100, 1)] = 100 := by
  refine ⟨rfl, ?_, ?_⟩
  · simp [binanceFormatOrder]
  · norm_num [fillsQuoteFunds, fillsQty]

/-- C4 (amended): KuCoin's normalizer derives the weighted mean — with the
native `dealFunds`/`dealSize` aggregates of the fills it returns
`Σ(p·q)/Σq` when the filled quantity is positive and `None` when it is
zero; OKX and Bybit copy the natively reported average (absent when the
wire value is empty / `'0'`); Binance maps a missing-or-zero `avgPrice`
to `None` rather than deriving anything from fills. -/
theorem c4_theorem :
    (∀ (fills : List (ℚ × ℚ)) (o : KucoinOrderPayload),
        o.dealFunds = some (fillsQuoteFunds fills) →
        o.dealSize = some (fillsQty fills) →
        (0 < fillsQty fills →
          (kucoinFormatOrder o).average_price
            = some (fillsQuoteFunds fills / fillsQty fills))
        ∧ (fillsQty fills = 0 →
          (kucoinFormatOrder o).average_price = none))
    ∧ (∀ o : OkxOrderPayload, (okxFormatOrder o).average_price = o.avgPx)
    ∧ (∀ o : BybitOrderPayload, o.avgPrice = 0 →
        (bybitFormatOrder o).average_price = none)
    ∧ (∀ o : BinanceOrderPayload,
        o.avgPrice = none ∨ o.avgPrice = some 0 →
        (binanceFormatOrder o).average_price = none) := by
  refine ⟨?_, fun o => rfl, ?_, ?_⟩
  · intro fills o h1 h2
    constructor
    · intro hpos
      simp [kucoinFormatOrder, h1, h2, hpos]
    · intro hz
      simp [kucoinFormatOrder, h1, h2, hz]
  · intro o h
    simp [bybitFormatOrder, h]
  · intro o h
    rcases h with h | h <;> simp [binanceFormatOrder, h]

/-- C4 witness: `c4_theorem` applied to the spec's test vector — fills
[(100,1), (200,1)] aggregated by KuCoin as `dealFunds=300`, `dealSize=2`
give `average_price = 150`, and an unfilled order (`dealSize=0`) gives
`None`. -/
theorem c4_witness :
    (kucoinFormatOrder
        { id := "a", symbol := "BTC-USDT", status := "done", side := "buy",
          type := "market", size := 2, dealSize := some 2, price := none,
          createdAt := 1, updatedAt := none, fee := some 0,
          feeCurrency := none, dealFunds := some 300 }).average_price
      = some 150
    ∧ (kucoinFormatOrder
        { id := "b", symbol := "BTC-USDT", status := "open", side := "buy",
          type := "limit", size := 2, dealSize := some 0, price := some 100,
          createdAt := 1, updatedAt := none, fee := some 0,
          feeCurrency := none, dealFunds := some 0 }).average_price
      = none := by
  constructor
  · have h := (c4_theorem.1 [(100, 1), (200, 1)]
      { id := "a", symbol := "BTC-USDT", status := "done", side := "buy",
        type := "market", size := 2, dealSize := some 2, price := none,
        createdAt := 1, updatedAt := none, fee := some 0,
        feeCurrency := none, dealFunds := some 300 }
      (by norm_num [fillsQuoteFunds]) (by norm_num [fillsQty])).1
      (by norm_num [fillsQty])
    rw [h]
    norm_num [fillsQuoteFunds, fillsQty]
  · exact (c4_theorem.1 []
      { id := "b", symbol := "BTC-USDT", status := "open", side := "buy",
        type := "limit", size := 2, dealSize := some 0, price := some 100,
        createdAt := 1, updatedAt := none, fee := some 0,
        feeCurrency := none, dealFunds := some 0 }
      (by norm_num [fillsQuoteFunds]) (by norm_num [fillsQty])).2
      (by norm_num [fillsQty])

/-- C5 counterexample: no normalizer sums commissions over the fills list.
A Binance FULL response whose two fills carry commissions 0.10 and 0.05 (in
BNB) but which has no top-level `commission`/`commissionAsset` keys is
normalized to `commission = 0` and `commission_asset = None`, not to the
claimed 0.15 / "BNB". -/
theorem c5_counterexample :
    (binanceFormatOrder
        { orderId := 2, symbol := "BTCUSDT", status := "FILLED",
          side := "BUY", type := "MARKET", origQty := 2, executedQty := 2,
          price := 0, time := 1, updateTime := none, commission := none,
          commissionAsset := none, avgPrice := none,
          fills := [{ price := 100, qty := 1, commission := 1/10,
                      commissionAsset := "BNB" },
                    { price := 100, qty := 1, commission := 1/20,
                      commissionAsset := "BNB" }] }).commission = 0
    ∧ (binanceFormatOrder
        { orderId := 2, symbol := "BTCUSDT", status := "FILLED",
          side := "BUY", type := "MARKET", origQty := 2, executedQty := 2,
          price := 0, time := 1, updateTime := none, commission := none,
          commissionAsset := none, avgPrice := none,
          fills := [{ price := 100, qty := 1, commission := 1/10,
                      commissionAsset := "BNB" },
                    { price := 100, qty := 1, commission := 1/20,
                      commissionAsset := "BNB" }] }).commission_asset = none
    ∧ fillsCommission
        [{ price := 100, qty := 1, commission := 1/10,
           commissionAsset := "BNB" },
         { price := 100, qty := 1, commission := 1/20,
           commissionAsset := "BNB" }] = 3/20
    ∧ firstFillAsset
        [{ price := 100, qty := 1, commission := 1/10,
           commissionAsset := "BNB" },
         { price := 100, qty := 1, commission := 1/20,
           commissionAsset := "BNB" }] = some "BNB"
    ∧ (0 : ℚ) ≠ 3/20 := by
  refine ⟨rfl, rfl, ?_, rfl, ?_⟩
  · norm_num [fillsCommission]
  · norm_num

/-- C5 (amended): every normalizer copies the native aggregate commission
field of its exchange (Binance `commission` with default 0 and
`commissionAsset`; KuCoin `fee`/`feeCurrency`; Bybit
`cumExecFee`/`feeTokenId`; OKX `fee`/`feeCcy`); none aggregates over a fills
list — the Binance formatter's output does not depend on `fills` at all. -/
theorem c5_theorem :
    (∀ o : BinanceOrderPayload,
        (binanceFormatOrder o).commission = o.commission.getD 0
        ∧ (binanceFormatOrder o).commission_asset = o.commissionAsset)
    ∧ (∀ (o : BinanceOrderPayload) (f1 f2 : List BinanceFill),
        binanceFormatOrder { o with fills := f1 }
          = binanceFormatOrder { o with fills := f2 })
    ∧ (∀ o : KucoinOrderPayload,
        (kucoinFormatOrder o).commission = o.fee.getD 0
        ∧ (kucoinFormatOrder o).commission_asset = o.feeCurrency)
    ∧ (∀ o : BybitOrderPayload,
        (bybitFormatOrder o).commission = o.cumExecFee.getD 0
        ∧ (bybitFormatOrder o).commission_asset = o.feeTokenId)
    ∧ (∀ o : OkxOrderPayload,
        (okxFormatOrder o).commission = o.fee.getD 0
        ∧ (okxFormatOrder o).commission_asset = o.feeCcy) :=
  ⟨fun _ => ⟨rfl, rfl⟩, fun _ _ _ => rfl, fun _ => ⟨rfl, rfl⟩,
   fun _ => ⟨rfl, rfl⟩, fun _ => ⟨rfl, rfl⟩⟩

/-- C2 counterexample: when the MEXC SDK call inside `create_order` fails,
the exception that propagates is a bare `fastapi.HTTPException` — here, for
the SDK message "boom" (no embedded JSON), `HTTPException(400,
\x7b"message": "boom"\x7d)` — which is neither `ValidationError` nor
`ExchangeAPIError`. -/
theorem c2_counterexample :
    mexcCreateOrderFailurePath "boom" jsonNeverParses
      = .httpException 400 (.messageDict "boom")
    ∧ PyExc.isValidationError
        (mexcCreateOrderFailurePath "boom" jsonNeverParses) = false
    ∧ PyExc.isExchangeAPIError
        (mexcCreateOrderFailurePath "boom" jsonNeverParses) = false := by
  refine ⟨rfl, rfl, rfl⟩

/-- C2 (amended): the adapters' catch sites re-raise as `ExchangeAPIError`
(the `handle_error` helper always does), with one exception: MEXC's
`create_order` failure path raises a bare `HTTPException(400, ...)` for
every SDK error message and every outcome of the JSON extraction, so a
third exception kind does escape that adapter boundary. -/
theorem c2_theorem :
    (∀ (errorMsg : String) (jsonLoadsOk : String → Bool),
        PyExc.isHTTPException
          (mexcCreateOrderFailurePath errorMsg jsonLoadsOk) = true
        ∧ PyExc.isValidationError
          (mexcCreateOrderFailurePath errorMsg jsonLoadsOk) = false
        ∧ PyExc.isExchangeAPIError
          (mexcCreateOrderFailurePath errorMsg jsonLoadsOk) = false)
    ∧ (∀ msg : String,
        handleError msg
          = .exchangeAPIError ("Exchange API Error: " ++ msg)
        ∧ PyExc.isExchangeAPIError (handleError msg) = true) := by
  constructor
  · intro errorMsg jsonLoadsOk
    simp only [mexcCreateOrderFailurePath]
    split_ifs <;> exact ⟨rfl, rfl, rfl⟩
  · exact fun msg => ⟨rfl, rfl⟩

/-- C6 counterexample: MEXC's `create_order` given `side=SELL`, `type=MARKET`
and `quote_order_qty=100` does not raise any `ValidationError` — it silently
drops the quote quantity and proceeds to the network call with only
`quantity` (and the `FULL` response type) in the options. -/
theorem c6_counterexample :
    mexcCreateOrderPreNetwork "BTCUSDT" "SELL" "MARKET" (some 1) none
        (some 100)
      = .ok [("quantity", MexcOptValue.num 1),
             ("newOrderRespType", MexcOptValue.str "FULL")] := by
  rfl

/-- C6 (amended): MEXC — the only adapter whose `create_order` accepts a
quote quantity at all — never rejects it: the pre-network phase always
succeeds, and `quoteOrderQty` is simply omitted from the request whenever
the side is not BUY or the order type is LIMIT, i.e. the parameter is
silently ignored instead of raising `ValidationError`. -/
theorem c6_theorem :
    (∀ (sym side ot : String) (q p qq : Option ℚ),
        mexcCreateOrderPreNetwork sym side ot q p qq
          = .ok (mexcBuildOptions side ot q p qq
              ++ [("newOrderRespType", MexcOptValue.str "FULL")]))
    ∧ (∀ (side ot : String) (q p qq : Option ℚ)
        (kv : String × MexcOptValue),
        kv ∈ mexcBuildOptions side ot q p qq → pyUpper side ≠ "BUY" →
        kv.1 ≠ "quoteOrderQty")
    ∧ (∀ (side ot : String) (q p qq : Option ℚ)
        (kv : String × MexcOptValue),
        kv ∈ mexcBuildOptions side ot q p qq → pyUpper ot = "LIMIT" →
        kv.1 ≠ "quoteOrderQty") := by
  refine ⟨fun _ _ _ _ _ _ => rfl, ?_, ?_⟩
  · intro side ot q p qq kv hkv hside
    unfold mexcBuildOptions at hkv
    by_cases h1 : pyUpper ot = "MARKET"
    · rw [if_pos h1] at hkv
      rcases List.mem_append.1 hkv with h | h
      · by_cases hcond : pyTruthyQ qq = true ∧ pyUpper side = "BUY"
        · exact absurd hcond.2 hside
        · rw [if_neg hcond] at h
          simp at h
      · by_cases hq : pyTruthyQ q = true
        · rw [if_pos hq] at h
          rw [List.mem_singleton.1 h]
          show ("quantity" : String) ≠ "quoteOrderQty"
          decide
        · rw [if_neg hq] at h
          simp at h
    · rw [if_neg h1] at hkv
      by_cases h2 : pyUpper ot = "LIMIT"
      · rw [if_pos h2] at hkv
        simp only [List.mem_cons, List.not_mem_nil, or_false] at hkv
        rcases hkv with rfl | rfl | rfl
        · show ("quantity" : String) ≠ "quoteOrderQty"
          decide
        · show ("price" : String) ≠ "quoteOrderQty"
          decide
        · show ("timeInForce" : String) ≠ "quoteOrderQty"
          decide
      · rw [if_neg h2] at hkv
        simp at hkv
  · intro side ot q p qq kv hkv hlim
    have h1 : ¬ pyUpper ot = "MARKET" := by
      rw [hlim]
      decide
    unfold mexcBuildOptions at hkv
    rw [if_neg h1, if_pos hlim] at hkv
    simp only [List.mem_cons, List.not_mem_nil, or_false] at hkv
    rcases hkv with rfl | rfl | rfl
    · show ("quantity" : String) ≠ "quoteOrderQty"
      decide
    · show ("price" : String) ≠ "quoteOrderQty"
      decide
    · show ("timeInForce" : String) ≠ "quoteOrderQty"
      decide

/-- C6 witness: `c6_theorem` applied to a MARKET SELL with a quote quantity:
the built options contain only `quantity` (no `quoteOrderQty`), and the
membership conjunct yields `"quantity" ≠ "quoteOrderQty"`. -/
theorem c6_witness :
    ("quantity", MexcOptValue.num 1)
        ∈ mexcBuildOptions "SELL" "MARKET" (some 1) none (some 100)
    ∧ ("quantity", MexcOptValue.num 1).1 ≠ "quoteOrderQty" := by
  constructor
  · rw [show mexcBuildOptions "SELL" "MARKET" (some 1) none (some 100)
        = [("quantity", MexcOptValue.num 1)] from rfl]
    exact List.mem_singleton_self _
  · exact c6_theorem.2.1 "SELL" "MARKET" (some 1) none (some 100)
      ("quantity", MexcOptValue.num 1)
      (by
        rw [show mexcBuildOptions "SELL" "MARKET" (some 1) none (some 100)
            = [("quantity", MexcOptValue.num 1)] from rfl]
        exact List.mem_singleton_self _)
      (by decide)

/-- C7 counterexample: a LIMIT order without a price *is* rejected before any
network call by Binance, but the `ValueError` is re-wrapped by the blanket
handler into `ExchangeAPIError`, not `ValidationError`; and MEXC performs no
pre-flight price check at all — its pre-network phase succeeds with
`price=None` in the options. -/
theorem c7_counterexample :
    binanceCreateOrderPreNetwork "BTCUSDT" "BUY" "LIMIT" (1/1000) none
      = .error (.exchangeAPIError
          "Failed to create order: Price is required for LIMIT orders")
    ∧ PyExc.isValidationError
        (PyExc.exchangeAPIError
          "Failed to create order: Price is required for LIMIT orders")
        = false
    ∧ mexcCreateOrderPreNetwork "BTCUSDT" "BUY" "LIMIT" (some (1/1000)) none
        none
      = .ok [("quantity", MexcOptValue.num (1/1000)),
             ("price", MexcOptValue.pyNone),
             ("timeInForce", MexcOptValue.str "GTC"),
             ("newOrderRespType", MexcOptValue.str "FULL")] := by
  refine ⟨rfl, rfl, rfl⟩

/-- C7 (amended): for a LIMIT order with no price, Binance, KuCoin, Bybit
and OKX fail before any network call, but with `ExchangeAPIError` (the
blanket handler's wrapping of the `ValueError`), never `ValidationError`;
MEXC performs no pre-flight price validation and proceeds to the network
call. -/
theorem c7_theorem :
    (∀ (sym side : String) (q : ℚ),
        binanceCreateOrderPreNetwork sym side "LIMIT" q none
          = .error (.exchangeAPIError
              "Failed to create order: Price is required for LIMIT orders"))
    ∧ (∀ (sym side : String) (q : ℚ),
        kucoinCreateOrderPreNetwork sym side "LIMIT" q none
          = .error (.exchangeAPIError
              "Failed to create order: Price is required for LIMIT orders"))
    ∧ (∀ (sym side : String) (q : ℚ),
        bybitCreateOrderPreNetwork sym side "LIMIT" q none
          = .error (.exchangeAPIError
              "Failed to create order: Price is required for LIMIT orders"))
    ∧ (∀ (sym side : String) (q : ℚ),
        okxCreateOrderPreNetwork sym side "LIMIT" q none
          = .error (.exchangeAPIError
              "Failed to create order: Price is required for LIMIT orders"))
    ∧ (∀ (sym side : String) (q p qq : Option ℚ),
        mexcCreateOrderPreNetwork sym side "LIMIT" q p qq
          = .ok (mexcBuildOptions side "LIMIT" q p qq
              ++ [("newOrderRespType", MexcOptValue.str "FULL")]))
    ∧ (∀ d : String,
        PyExc.isValidationError (.exchangeAPIError d) = false) :=
  ⟨fun _ _ _ => rfl, fun _ _ _ => rfl, fun _ _ _ => rfl, fun _ _ _ => rfl,
   fun _ _ _ _ _ => rfl, fun _ => rfl⟩
